import Mathlib

/-!
Verification of sphinxcontrib-googledrive (src/sphinxcontrib/googledrive.py):
a shallow embedding of the URL classifier, metadata resolution, mimetype
guessing, timestamp parsing, and the cache-and-fetch decision procedure of
`GoogleDriveImageConverter.handle`, together with theorems settling the
specification's claims about them.

Framework-specific node-tree mutation (docutils node updates, Sphinx env
bookkeeping) is outside the modelled scope, as are the HTTP transport and
credential-file parsing: the embedding models their observable outcomes
(which warning is logged, whether content is fetched, what is written to
the image cache).
-/

namespace GoogleDrive

/-- Byte strings (file contents, network payloads) as lists of byte values. -/
abbrev Bytes := List Nat

/-! ### URL classifier (`url_to_file_id`, googledrive.py lines 27-40)

The Python code applies `re.match` (anchored at the start of the string
only, not at the end) with the two patterns
`https://drive.google.com/open\?id=([^/?]+)` and
`https://docs.google.com/drawings/d/([^/?]+)(?:/edit.*)?`.
The dots in the host parts are unescaped, so `re` treats each of them as
a wildcard matching any single character except a newline (a wrong host
such as `driveXgoogleYcom` is accepted); the `\?` is escaped and
literal. For these patterns, `re.match` succeeds exactly when the
leading characters of the URL satisfy the pattern's literal-or-wildcard
positions one by one, followed by at least one character that is neither
`/` nor `?`; the captured group is the maximal such run (the optional
`(?:/edit.*)?` group never affects success or the capture, since it can
match the empty string and `[^/?]+` cannot be backtracked past a
`/`). -/

/-- The template text of `drive_url_re` before the capture group (its
host dots are wildcards in the regex, see `DRIVE_URL_PAT`). -/
def DRIVE_URL_LIT : List Char := "https://drive.google.com/open?id=".toList

/-- The template text of `drawings_url_re` before the capture group (its
host dots are wildcards in the regex, see `DRAWINGS_URL_PAT`). -/
def DRAWINGS_URL_LIT : List Char := "https://docs.google.com/drawings/d/".toList

/-- One position of a regex pattern prefix: a literal character, or the
unescaped-dot wildcard. -/
inductive PatChar where
  | lit (c : Char)
  | dot
deriving DecidableEq

/-- Does a pattern position accept a character? The unescaped dot
matches any character except a newline (no `re.DOTALL`). -/
def PatChar.accepts : PatChar → Char → Bool
  | PatChar.lit c, a => c = a
  | PatChar.dot, a => a ≠ '\n'

/-- The positions of `drive_url_re` before the capture group: the
characters of `https://drive.google.com/open?id=`, with the two
unescaped host dots as wildcards (the `?` comes from the escaped `\?`
and is literal). -/
def DRIVE_URL_PAT : List PatChar :=
  DRIVE_URL_LIT.map (fun c => if c = '.' then PatChar.dot else PatChar.lit c)

/-- The positions of `drawings_url_re` before the capture group: the
characters of `https://docs.google.com/drawings/d/`, with the two
unescaped host dots as wildcards. -/
def DRAWINGS_URL_PAT : List PatChar :=
  DRAWINGS_URL_LIT.map (fun c => if c = '.' then PatChar.dot else PatChar.lit c)

/-- Characters admitted by the regex character class `[^/?]`. -/
def isIdChar (c : Char) : Bool := c ≠ '/' && c ≠ '?'

/-- Match a pattern prefix against the start of a string, returning the
remainder on success (the anchored-at-start part of `re.match`). -/
def matchPat : List PatChar → List Char → Option (List Char)
  | [], s => some s
  | _ :: _, [] => none
  | p :: ps, c :: cs => if p.accepts c then matchPat ps cs else none

/-- Pointwise acceptance of a whole character list by a pattern of the
same length. -/
def patAccepts : List PatChar → List Char → Bool
  | [], [] => true
  | p :: ps, a :: as => p.accepts a && patAccepts ps as
  | _, _ => false

/-- Capture of `([^/?]+)` at the current position: the maximal run of
non-`/`, non-`?` characters, failing if it is empty. -/
def captureId (rest : List Char) : Option (List Char) :=
  if rest.takeWhile isIdChar = [] then none else some (rest.takeWhile isIdChar)

/-- `url_to_file_id` (googledrive.py lines 31-40): try `drive_url_re`
first, then `drawings_url_re`; `None` when neither matches. -/
def url_to_file_id (url : String) : Option String :=
  match
    (match matchPat DRIVE_URL_PAT url.toList with
      | some rest => captureId rest
      | none => none) with
  | some ident => some (String.mk ident)
  | none =>
      match matchPat DRAWINGS_URL_PAT url.toList with
      | some rest => (captureId rest).map String.mk
      | none => none

/-! ### Timestamp parsing (googledrive.py lines 88-89)

`dateutil.parser.parse(image_info['modifiedTime'])` followed by
`int(mktime(d.timetuple()))`. The Drive API serves RFC 3339 timestamps
`YYYY-MM-DDTHH:MM:SS[.fff]Z`; `timetuple()` keeps the literal calendar
components (dropping any timezone designator), and `mktime` reinterprets
them in the host's local timezone, yielding epoch seconds shifted by the
host's UTC offset. The embedding takes that offset as an explicit
parameter `tz` (seconds east of UTC). -/

/-- Value of a decimal digit character. -/
def digitVal (c : Char) : Option Nat :=
  if c.isDigit then some (c.toNat - 48) else none

/-- Two decimal digits. -/
def digits2 (a b : Char) : Option Nat := do
  let x ← digitVal a
  let y ← digitVal b
  pure (10 * x + y)

/-- Four decimal digits. -/
def digits4 (a b c d : Char) : Option Nat := do
  let x ← digits2 a b
  let y ← digits2 c d
  pure (100 * x + y)

/-- Calendar components of a parsed timestamp (the fields of
`timetuple()` that `mktime` consumes). -/
structure DateTuple where
  year : Nat
  month : Nat
  day : Nat
  hour : Nat
  minute : Nat
  second : Nat
deriving DecidableEq

/-- Parse the leading `YYYY-MM-DDTHH:MM:SS` of an RFC 3339 timestamp into
calendar components; anything after the seconds field (fractional part,
`Z`, numeric offset) does not change the components `timetuple()` keeps. -/
def parse_iso (s : String) : Option DateTuple :=
  match s.toList with
  | y1 :: y2 :: y3 :: y4 :: c1 :: m1 :: m2 :: c2 :: d1 :: d2 :: c3 ::
      h1 :: h2 :: c4 :: n1 :: n2 :: c5 :: s1 :: s2 :: _ =>
    if c1 = '-' && c2 = '-' && c3 = 'T' && c4 = ':' && c5 = ':' then do
      let y ← digits4 y1 y2 y3 y4
      let mo ← digits2 m1 m2
      let da ← digits2 d1 d2
      let h ← digits2 h1 h2
      let mi ← digits2 n1 n2
      let se ← digits2 s1 s2
      pure ⟨y, mo, da, h, mi, se⟩
    else none
  | _ => none

/-- Days from the Unix epoch to a civil date (proleptic Gregorian). -/
def days_from_civil (y m d : Int) : Int :=
  let y2 : Int := if m ≤ 2 then y - 1 else y
  let era : Int := (if 0 ≤ y2 then y2 else y2 - 399) / 400
  let yoe : Int := y2 - era * 400
  let mp : Int := (m + 9) % 12
  let doy : Int := (153 * mp + 2) / 5 + d - 1
  let doe : Int := yoe * 365 + yoe / 4 - yoe / 100 + doy
  era * 146097 + doe - 719468

/-- `mktime` on a calendar tuple with the host's UTC offset `tz` (seconds
east of UTC): interpret the components as local wall-clock time and
convert to epoch seconds. -/
def mktime (tz : Int) (t : DateTuple) : Int :=
  days_from_civil t.year t.month t.day * 86400 +
    t.hour * 3600 + t.minute * 60 + t.second - tz

/-- The timestamp round-trip of googledrive.py lines 88-89:
`int(mktime(dateutil.parser.parse(s).timetuple()))`. -/
def parse_last_modified (tz : Int) (s : String) : Option Int :=
  (parse_iso s).map (mktime tz)

/-! ### Metadata, mimetype resolution and `Image` construction
(googledrive.py lines 43-113) -/

/-- The metadata record returned by
`files().get(fileId, fields='mimeType,modifiedTime,trashed,webContentLink')`.
Fields may be absent from the response (`dict.get` yields `None`). -/
structure ImageInfo where
  mimeType : Option String
  modifiedTime : String
  trashed : Option Bool
  webContentLink : Option String

/-- Exceptions that can escape the `try` block of
`GoogleDriveImageConverter.handle`, by the `except` clause that would
catch them: `IOError` (raised for trashed files), `UnsupportedMimeType`
(carrying the offending mimetype), `ExtensionError` (raised by
`connect_to_GoogleDrive` when no service account is configured), and any
other exception (transport failures, parse errors, ...). -/
inductive DriveError where
  | ioNotFound
  | unsupportedMimeType (mimetype : String)
  | configurationError
  | generic
deriving DecidableEq

/-- `Image.EXPORTABLE_IMAGES` (googledrive.py line 75). -/
def EXPORTABLE_IMAGES : List String := ["application/vnd.google-apps.drawing"]

/-- `Image.guess_mimetype` (googledrive.py lines 91-102): exportable
("drawing") documents resolve to PDF when supported, else PNG; other
documents pass through when supported and raise `UnsupportedMimeType`
otherwise. `image_info.get('mimeType', '')` defaults to the empty
string. -/
def guess_mimetype (image_info : ImageInfo) (supported_image_types : List String) :
    Except DriveError String :=
  let mimetype := image_info.mimeType.getD ""
  if mimetype ∈ EXPORTABLE_IMAGES then
    if "application/pdf" ∈ supported_image_types then
      Except.ok "application/pdf"
    else
      Except.ok "image/png"
  else
    if mimetype ∈ supported_image_types then
      Except.ok mimetype
    else
      Except.error (DriveError.unsupportedMimeType mimetype)

/-- The fields `Image.__init__` stores (googledrive.py lines 77-89),
minus the drive handle. -/
structure ImageData where
  file_id : String
  exportable : Bool
  mimetype : String
  url : Option String
  last_modified : Int
deriving DecidableEq

/-- The remote side seen by one resolution: the metadata response for the
file id, the body of `files().export(fileId, mimeType=m)` as a function
of the requested mimetype, and the body of `requests.get(u)` as a
function of the URL. -/
structure Remote where
  info : ImageInfo
  exportContent : String → Bytes
  webContent : String → Bytes

/-- `Image.__init__` (googledrive.py lines 77-89): raise `IOError` when
the metadata says `trashed`, resolve the mimetype (possibly raising
`UnsupportedMimeType`), then parse `modifiedTime` (a parse failure is an
exception reaching the generic handler). `tz` is the host's UTC offset
consumed by `mktime`. -/
def Image.init (tz : Int) (remote : Remote) (file_id : String)
    (supported_image_types : List String) : Except DriveError ImageData :=
  let image_info := remote.info
  if image_info.trashed.getD false then
    Except.error DriveError.ioNotFound
  else do
    let mimetype ← guess_mimetype image_info supported_image_types
    match parse_last_modified tz image_info.modifiedTime with
    | none => Except.error DriveError.generic
    | some lm =>
        Except.ok
          { file_id := file_id
            exportable := decide (image_info.mimeType.getD "" ∈ EXPORTABLE_IMAGES)
            mimetype := mimetype
            url := image_info.webContentLink
            last_modified := lm }

/-- Modelled from the spec: the fixed MIME-to-extension table of the host
framework's `get_image_extension` (sphinx.util.images, not in src/),
which `Image.extension` (googledrive.py lines 104-106) consults; unknown
mimetypes yield `None`. -/
def get_image_extension (mimetype : String) : Option String :=
  if mimetype = "image/gif" then some ".gif"
  else if mimetype = "image/jpeg" then some ".jpg"
  else if mimetype = "image/png" then some ".png"
  else if mimetype = "image/svg+xml" then some ".svg"
  else if mimetype = "application/pdf" then some ".pdf"
  else none

/-- `Image.read` (googledrive.py lines 108-113): exportable images are
fetched through `files().export` with the resolved mimetype;
others through `requests.get` on the `webContentLink` (a missing link
makes `requests.get(None)` raise before any transfer). -/
def Image.read (remote : Remote) (image : ImageData) : Except DriveError Bytes :=
  if image.exportable then
    Except.ok (remote.exportContent image.mimetype)
  else
    match image.url with
    | some u => Except.ok (remote.webContent u)
    | none => Except.error DriveError.generic

/-! ### The cache filesystem -/

/-- A cached file: its bytes and its `st_mtime` (fractional seconds, so a
rational). -/
structure FSFile where
  content : Bytes
  st_mtime : ℚ
deriving DecidableEq

/-- The image-cache filesystem as an association list from paths to
files; the head entry for a path is its current state. -/
abbrev FS := List (String × FSFile)

/-- `os.path.exists` + `open`: the current file at a path. -/
def FS.lookup : FS → String → Option FSFile
  | [], _ => none
  | (p, f) :: rest, q => if p = q then some f else FS.lookup rest q

/-- `open(path, 'wb')` + `write`: overwrite the file at `path` with
`content`, its mtime becoming the current time. -/
def FS.write (fs : FS) (path : String) (content : Bytes) (now : ℚ) : FS :=
  (path, ⟨content, now⟩) :: fs

/-- `ceil` of a rational via `Int.fdiv`, executable for concrete inputs;
`ceilQ_eq_ceil` below identifies it with the mathematical ceiling used by
`math.ceil`. -/
def ceilQ (q : ℚ) : Int := -((-q.num).fdiv q.den)

/-! ### `GoogleDriveImageConverter` (googledrive.py lines 129-178) -/

/-- The configuration and process environment the converter consults:
presence of the `GOOGLE_DRIVE_SERVICE_ACCOUNT_KEY` environment variable
(`in os.environ` is a presence check, so an empty value still counts),
the `googledrive_service_account` config value (tested for truthiness,
so `None` and the empty string both fail), and the
`googledrive_trim_images` flag. -/
structure Config where
  envCredentials : Option String
  googledrive_service_account : Option String
  googledrive_trim_images : Bool

/-- Truthiness of `self.config.googledrive_service_account`. -/
def Config.serviceAccountTruthy (cfg : Config) : Bool :=
  match cfg.googledrive_service_account with
  | some p => p ≠ ""
  | none => false

/-- `connect_to_GoogleDrive` (googledrive.py lines 136-143): environment
variable first, configured key file second, `ExtensionError` when
neither is available. The credential objects themselves are out of
scope; the result records which source succeeded. -/
def connect_to_GoogleDrive (cfg : Config) : Except DriveError Unit :=
  match cfg.envCredentials with
  | some _ => Except.ok ()
  | none =>
      if cfg.serviceAccountTruthy then Except.ok ()
      else Except.error DriveError.configurationError

/-- Observable outcome of one `handle` call: return at the cache-fresh
check (line 155), completion of the download (lines 157-169), or one of
the warnings logged by the `except` clauses (lines 170-178). `warnNotFound`
is the quiet `'... (not found)'` message, `warnGeneric` the verbose
`'Fail to download a image on Google Drive: ...'` one. -/
inductive Outcome where
  | fresh (path : String)
  | success (path : String) (mimetype : String)
  | warnNotFound
  | warnUnsupported (mimetype : String)
  | warnGeneric
deriving DecidableEq

/-- Result of the `try` block of `handle`: normal completion, or an
exception escaping it together with the filesystem state at raise
time. `fetches` counts completed network content transfers
(`files().export` or `requests.get`). -/
inductive BodyResult where
  | ok (fs : FS) (outcome : Outcome) (fetches : Nat)
  | exc (fs : FS) (e : DriveError) (fetches : Nat)
deriving DecidableEq

/-- The download branch of `handle` (googledrive.py lines 157-164):
`open(path, 'wb')` truncates the file first, then `image.read()` fetches
the bytes, the optional trim step runs, and the bytes are written. If
`read` raises, the truncated (empty) file is left behind. `trimFn`
abstracts `trim_image` (a PIL bitmap manipulation). -/
def do_download (now : ℚ) (trimFn : Bytes → String → Bytes) (cfg : Config)
    (remote : Remote) (image : ImageData) (fs : FS) (path : String) : BodyResult :=
  match Image.read remote image with
  | Except.error e => BodyResult.exc (FS.write fs path [] now) e 0
  | Except.ok raw =>
      let content :=
        if cfg.googledrive_trim_images then trimFn raw image.mimetype else raw
      BodyResult.ok (FS.write fs path content now)
        (Outcome.success path image.mimetype) 1

/-- The `try` block of `handle` (googledrive.py lines 146-169): connect,
re-classify the URI, construct the `Image`, compute the target path
`os.path.join(self.imagedir, 'googledrive', file_id + image.extension)`
(a `None` extension makes the `+` raise `TypeError`), apply the
cache-freshness check `ceil(st_mtime) <= image.last_modified`, and
download when stale or absent. A `None` file id would make the metadata
call fail (the converter's `match` pre-filters those URIs). -/
def handle_try (tz : Int) (now : ℚ) (imagedir : String)
    (supported_image_types : List String) (trimFn : Bytes → String → Bytes)
    (cfg : Config) (remote : Remote) (fs : FS) (uri : String) : BodyResult :=
  match connect_to_GoogleDrive cfg with
  | Except.error e => BodyResult.exc fs e 0
  | Except.ok _ =>
      match url_to_file_id uri with
      | none => BodyResult.exc fs DriveError.generic 0
      | some file_id =>
          match Image.init tz remote file_id supported_image_types with
          | Except.error e => BodyResult.exc fs e 0
          | Except.ok image =>
              match get_image_extension image.mimetype with
              | none => BodyResult.exc fs DriveError.generic 0
              | some ext =>
                  let path := imagedir ++ "/googledrive/" ++ file_id ++ ext
                  match FS.lookup fs path with
                  | some file =>
                      if ceilQ file.st_mtime ≤ image.last_modified then
                        BodyResult.ok fs (Outcome.fresh path) 0
                      else
                        do_download now trimFn cfg remote image fs path
                  | none => do_download now trimFn cfg remote image fs path

/-- `handle` (googledrive.py lines 145-178): the `try` block plus the
`except` clauses. `IOError` and `HttpError(404)` log the quiet not-found
warning, `UnsupportedMimeType` logs the offending mimetype, and every
other exception — `ExtensionError` included, since it is a subclass of
`Exception` — is caught by the final clause and logged verbosely; no
exception propagates out of `handle`. -/
def handle (tz : Int) (now : ℚ) (imagedir : String)
    (supported_image_types : List String) (trimFn : Bytes → String → Bytes)
    (cfg : Config) (remote : Remote) (fs : FS) (uri : String) : FS × Outcome × Nat :=
  match handle_try tz now imagedir supported_image_types trimFn cfg remote fs uri with
  | BodyResult.ok fs₁ outcome fetches => (fs₁, outcome, fetches)
  | BodyResult.exc fs₁ e fetches =>
      match e with
      | DriveError.ioNotFound => (fs₁, Outcome.warnNotFound, fetches)
      | DriveError.unsupportedMimeType m => (fs₁, Outcome.warnUnsupported m, fetches)
      | DriveError.configurationError => (fs₁, Outcome.warnGeneric, fetches)
      | DriveError.generic => (fs₁, Outcome.warnGeneric, fetches)

/-! ### Specification-side definitions for the URL-classifier claim -/

/-- The literal `/edit` of the drawings template. -/
def EDIT_LIT : List Char := "/edit".toList

/-- Modelled from the spec's words (claim C3): `classify` on URLs that
match one of the two recognized templates in full —
`https://drive.google.com/open?id=<ID>`, or
`https://docs.google.com/drawings/d/<ID>` optionally followed by
`/edit...`, with `<ID>` a nonempty run of characters excluding `/` and
`?` — returns the captured identifier; every other string yields
absence. -/
def classify_full (url : String) : Option String :=
  let s := url.toList
  if s.take DRIVE_URL_LIT.length = DRIVE_URL_LIT ∧
      s.drop DRIVE_URL_LIT.length ≠ [] ∧
      (s.drop DRIVE_URL_LIT.length).all isIdChar then
    some (String.mk (s.drop DRIVE_URL_LIT.length))
  else
    let drawRest := s.drop DRAWINGS_URL_LIT.length
    let ident := drawRest.takeWhile isIdChar
    let tail := drawRest.drop ident.length
    if s.take DRAWINGS_URL_LIT.length = DRAWINGS_URL_LIT ∧ ident ≠ [] ∧
        (tail = [] ∨ tail.take EDIT_LIT.length = EDIT_LIT) then
      some (String.mk ident)
    else
      none

/-- Modelled from the spec's words as amended (claim C3): matching is
anchored at the start of the string only (`re.match`), and the unescaped
dots of each template's host are single-character wildcards accepting
anything but a newline. Classification asks whether the leading
characters of the URL satisfy a template's positions one by one,
followed by at least one character excluding `/` and `?`, and captures
the maximal run of such characters; the drive template is tried
first. -/
def classify_start (url : String) : Option String :=
  if patAccepts DRIVE_URL_PAT (url.toList.take DRIVE_URL_PAT.length) = true ∧
      (url.toList.drop DRIVE_URL_PAT.length).takeWhile isIdChar ≠ [] then
    some (String.mk ((url.toList.drop DRIVE_URL_PAT.length).takeWhile isIdChar))
  else if patAccepts DRAWINGS_URL_PAT
        (url.toList.take DRAWINGS_URL_PAT.length) = true ∧
      (url.toList.drop DRAWINGS_URL_PAT.length).takeWhile isIdChar ≠ [] then
    some (String.mk ((url.toList.drop DRAWINGS_URL_PAT.length).takeWhile isIdChar))
  else
    none

/-! ### Concrete fixtures used by witnesses and counterexamples -/

/-- A configuration with credentials in the environment and trimming
disabled. -/
def envCfg : Config :=
  { envCredentials := some "service-account-json-blob"
    googledrive_service_account := none
    googledrive_trim_images := false }

/-- A configuration with no environment credentials and no configured
service-account file. -/
def noCredCfg : Config :=
  { envCredentials := none
    googledrive_service_account := none
    googledrive_trim_images := false }

/-- Metadata of a live Google drawing, as in the spec's end-to-end
example. -/
def drawingInfo : ImageInfo :=
  { mimeType := some "application/vnd.google-apps.drawing"
    modifiedTime := "2023-01-01T00:00:00Z"
    trashed := some false
    webContentLink := some "https://drive.google.com/uc?id=ABC123" }

/-- Metadata of a live plain PNG image modified at epoch second 10. -/
def pngInfo : ImageInfo :=
  { mimeType := some "image/png"
    modifiedTime := "1970-01-01T00:00:10Z"
    trashed := some false
    webContentLink := some "https://drive.google.com/uc?id=XYZ" }

/-- Metadata of a trashed file stored in a format outside every builder's
supported set. -/
def trashedTiffInfo : ImageInfo :=
  { mimeType := some "image/tiff"
    modifiedTime := "2023-01-01T00:00:00Z"
    trashed := some true
    webContentLink := some "https://drive.google.com/uc?id=ABC123" }

/-- A remote serving the given metadata, with distinguishable export and
web-download payloads. -/
def remoteOf (info : ImageInfo) : Remote :=
  { info := info
    exportContent := fun _ => [9, 9, 9]
    webContent := fun _ => [7, 7, 7] }

/-- The identity trim function (the PIL step is never entered in the
scenarios proved below, which run with `googledrive_trim_images`
false). -/
def idTrim : Bytes → String → Bytes := fun c _ => c

/-! ## Supporting lemmas -/

/-- The executable `ceilQ` is the mathematical ceiling, i.e. Python's
`math.ceil` on an exact rational timestamp. -/
theorem ceilQ_eq_ceil (q : ℚ) : ceilQ q = ⌈q⌉ := by
  have h1 : ((-q).num).fdiv ((-q).den) = (-q).num / (-q).den :=
    Int.fdiv_eq_ediv _ (Int.natCast_nonneg _)
  have h2 : ⌊-q⌋ = -⌈q⌉ := Int.floor_neg
  have h3 : ⌊-q⌋ = (-q).num / (-q).den := Rat.floor_def
  unfold ceilQ
  rw [show (-q.num) = (-q).num from (Rat.neg_num q).symm]
  rw [show (q.den : ℤ) = ((-q).den : ℤ) by rw [Rat.neg_den]]
  rw [h1, ← h3, h2, neg_neg]

/-- Overwriting a path makes its lookup yield exactly the written bytes
with the write-time mtime. -/
theorem FS.lookup_write (fs : FS) (path : String) (content : Bytes) (now : ℚ) :
    FS.lookup (FS.write fs path content now) path = some ⟨content, now⟩ := by
  simp [FS.write, FS.lookup]

/-- `matchPat` succeeds exactly on strings whose leading characters are
accepted pointwise by the pattern, and returns the rest. -/
theorem matchPat_eq (p : List PatChar) :
    ∀ s : List Char, matchPat p s =
      if patAccepts p (s.take p.length) = true then some (s.drop p.length)
      else none := by
  induction p with
  | nil => intro s; simp [matchPat, patAccepts]
  | cons q qs ih =>
      intro s
      cases s with
      | nil => simp [matchPat, patAccepts]
      | cons a as =>
          simp only [matchPat, List.take, List.drop, List.length, patAccepts]
          by_cases hqa : q.accepts a = true
          · rw [if_pos hqa, ih as]
            by_cases h : patAccepts qs (as.take qs.length) = true
            · rw [if_pos h, if_pos (by rw [hqa, h]; rfl)]
            · rw [if_neg h, if_neg (by simpa [hqa] using h)]
          · rw [if_neg hqa,
              if_neg (by intro hc; exact hqa (Bool.and_eq_true_iff.mp hc).1)]

/-- Inversion of a successful `matchPat`. -/
theorem matchPat_some (p : List PatChar) (s r : List Char)
    (h : matchPat p s = some r) :
    patAccepts p (s.take p.length) = true ∧ r = s.drop p.length := by
  rw [matchPat_eq] at h
  by_cases hc : patAccepts p (s.take p.length) = true
  · rw [if_pos hc] at h
    exact ⟨hc, (Option.some.inj h).symm⟩
  · rw [if_neg hc] at h
    exact Option.noConfusion h

/-- Inversion of a failed `matchPat`. -/
theorem matchPat_none (p : List PatChar) (s : List Char)
    (h : matchPat p s = none) :
    ¬patAccepts p (s.take p.length) = true := by
  intro hc
  rw [matchPat_eq, if_pos hc] at h
  exact Option.noConfusion h

/-- A trashed metadata record makes `Image.__init__` raise the not-found
`IOError` immediately. -/
theorem Image.init_trashed (tz : Int) (remote : Remote) (file_id : String)
    (supported : List String) (h : remote.info.trashed = some true) :
    Image.init tz remote file_id supported = Except.error DriveError.ioNotFound := by
  simp [Image.init, h]

/-- When the metadata is not trashed, `Image.__init__` propagates a
mimetype-resolution failure unchanged. -/
theorem Image.init_of_guess_error (tz : Int) (remote : Remote) (file_id : String)
    (supported : List String) (e : DriveError)
    (htr : remote.info.trashed.getD false = false)
    (hg : guess_mimetype remote.info supported = Except.error e) :
    Image.init tz remote file_id supported = Except.error e := by
  simp only [Image.init, htr, hg, Bool.false_eq_true, if_false]
  rfl

/-! ## Claim theorems -/

/-- C4: for every metadata record whose remote MIME type is
`application/vnd.google-apps.drawing` and every supported-type set,
`guess_mimetype` returns `application/pdf` when `application/pdf` is in
the supported set and `image/png` otherwise (even when `image/png` is
not in the supported set); being a pure function of its arguments, the
result is deterministic and independent of call order. -/
theorem C4_drawing_mimetype (image_info : ImageInfo) (supported : List String)
    (h : image_info.mimeType = some "application/vnd.google-apps.drawing") :
    guess_mimetype image_info supported =
      Except.ok
        (if "application/pdf" ∈ supported then "application/pdf" else "image/png") := by
  unfold guess_mimetype
  rw [h]
  simp only [Option.getD_some, EXPORTABLE_IMAGES]
  rw [if_pos (by simp)]
  by_cases hp : "application/pdf" ∈ supported
  · rw [if_pos hp, if_pos hp]
  · rw [if_neg hp, if_neg hp]

/-- Witness for C4: a drawing with only PNG supported resolves to
`image/png`, and with PDF supported to `application/pdf`. -/
theorem C4_drawing_mimetype_witness :
    drawingInfo.mimeType = some "application/vnd.google-apps.drawing" ∧
    guess_mimetype drawingInfo ["image/png"] = Except.ok "image/png" ∧
    guess_mimetype drawingInfo ["application/pdf", "image/png"] =
      Except.ok "application/pdf" :=
  ⟨rfl,
   by simpa using C4_drawing_mimetype drawingInfo ["image/png"] rfl,
   by simpa using C4_drawing_mimetype drawingInfo ["application/pdf", "image/png"] rfl⟩

/-- C9: the timestamp round-trip of googledrive.py lines 88-89 (parse the
calendar components, reinterpret them in local time, convert back to
epoch seconds) is deterministic: two parses of the same remote
`modifiedTime` string in the same host environment always produce the
same integer epoch value. -/
theorem C9_parse_deterministic (tz : Int) (s : String) :
    parse_last_modified tz s = parse_last_modified tz s ∧
    ∀ v₁ v₂ : Int, parse_last_modified tz s = some v₁ →
      parse_last_modified tz s = some v₂ → v₁ = v₂ := by
  refine ⟨rfl, fun v₁ v₂ h₁ h₂ => ?_⟩
  rw [h₁] at h₂
  injection h₂

/-- Witness for C9: both runs on `2023-01-01T00:00:00Z` (UTC host) yield
1672531200. -/
theorem C9_parse_deterministic_witness :
    parse_last_modified 0 "2023-01-01T00:00:00Z" = some 1672531200 ∧
    (∀ v₁ v₂ : Int, parse_last_modified 0 "2023-01-01T00:00:00Z" = some v₁ →
      parse_last_modified 0 "2023-01-01T00:00:00Z" = some v₂ → v₁ = v₂) :=
  ⟨by decide, (C9_parse_deterministic 0 "2023-01-01T00:00:00Z").2⟩

/-- C10: error precedence in `Image.__init__` — when the metadata says
`trashed`, the `IOError` is raised before mimetype resolution is
attempted, so a trashed file never raises `UnsupportedMimeType`, even
when its MIME type is outside the supported set. -/
theorem C10_trashed_precedence (tz : Int) (remote : Remote) (file_id : String)
    (supported : List String) (h : remote.info.trashed = some true) :
    Image.init tz remote file_id supported = Except.error DriveError.ioNotFound ∧
    ∀ m : String,
      Image.init tz remote file_id supported ≠
        Except.error (DriveError.unsupportedMimeType m) := by
  have hinit := Image.init_trashed tz remote file_id supported h
  exact ⟨hinit, fun m hc => by rw [hinit] at hc; injection hc with h1; injection h1⟩

/-- Witness for C10: a trashed drawing whose MIME type is outside the
supported set raises the not-found `IOError`, not
`UnsupportedMimeType`. -/
theorem C10_trashed_precedence_witness :
    (remoteOf trashedTiffInfo).info.trashed = some true ∧
    Image.init 0 (remoteOf trashedTiffInfo) "ABC123" ["image/png"] =
      Except.error DriveError.ioNotFound :=
  ⟨rfl,
   (C10_trashed_precedence 0 (remoteOf trashedTiffInfo) "ABC123" ["image/png"] rfl).1⟩

/-- C6: for every metadata response with `trashed` true, `Image`
construction fails with the not-found `IOError` — caught by the
dedicated `except IOError` clause, so the logged warning is the quiet
not-found one, distinguished from the verbose generic one — and nothing
is written to the cache (zero content fetches, filesystem unchanged). -/
theorem C6_trashed_never_written (tz : Int) (now : ℚ) (imagedir : String)
    (supported : List String) (trimFn : Bytes → String → Bytes) (cfg : Config)
    (remote : Remote) (fs : FS) (uri : String) (file_id : String)
    (hconn : connect_to_GoogleDrive cfg = Except.ok ())
    (hfid : url_to_file_id uri = some file_id)
    (htrash : remote.info.trashed = some true) :
    handle_try tz now imagedir supported trimFn cfg remote fs uri =
      BodyResult.exc fs DriveError.ioNotFound 0 ∧
    handle tz now imagedir supported trimFn cfg remote fs uri =
      (fs, Outcome.warnNotFound, 0) ∧
    Outcome.warnNotFound ≠ Outcome.warnGeneric := by
  have hinit := Image.init_trashed tz remote file_id supported htrash
  have htry : handle_try tz now imagedir supported trimFn cfg remote fs uri =
      BodyResult.exc fs DriveError.ioNotFound 0 := by
    simp [handle_try, hconn, hfid, hinit]
  refine ⟨htry, ?_, by simp⟩
  simp [handle, htry]

/-- Witness for C6: the spec's end-to-end trashed example — the drawing
URL with `trashed: true` metadata yields the quiet not-found warning and
an unchanged empty cache. -/
theorem C6_trashed_never_written_witness :
    (remoteOf { drawingInfo with trashed := some true }).info.trashed = some true ∧
    handle 0 100 "cache" ["image/png"] idTrim envCfg
        (remoteOf { drawingInfo with trashed := some true }) []
        "https://docs.google.com/drawings/d/ABC123/edit" =
      ([], Outcome.warnNotFound, 0) :=
  ⟨rfl,
   (C6_trashed_never_written 0 100 "cache" ["image/png"] idTrim envCfg
     (remoteOf { drawingInfo with trashed := some true }) []
     "https://docs.google.com/drawings/d/ABC123/edit" "ABC123"
     rfl (by decide) rfl).2.1⟩

/-- C5: for every non-drawing document, if its remote MIME type is in the
supported set then mimetype resolution returns it unchanged; otherwise
resolution fails with `UnsupportedMimeType` carrying the offending MIME
type, the handler logs it, and no file is written to the cache (zero
content fetches, filesystem unchanged). -/
theorem C5_unsupported_mimetype (tz : Int) (now : ℚ) (imagedir : String)
    (supported : List String) (trimFn : Bytes → String → Bytes) (cfg : Config)
    (remote : Remote) (fs : FS) (uri : String) (file_id : String) (mimetype : String)
    (hmime : remote.info.mimeType.getD "" = mimetype)
    (hnd : mimetype ∉ EXPORTABLE_IMAGES) :
    (mimetype ∈ supported →
      guess_mimetype remote.info supported = Except.ok mimetype) ∧
    (mimetype ∉ supported →
      guess_mimetype remote.info supported =
        Except.error (DriveError.unsupportedMimeType mimetype) ∧
      (connect_to_GoogleDrive cfg = Except.ok () →
        url_to_file_id uri = some file_id →
        remote.info.trashed.getD false = false →
        handle tz now imagedir supported trimFn cfg remote fs uri =
          (fs, Outcome.warnUnsupported mimetype, 0))) := by
  constructor
  · intro hs
    unfold guess_mimetype
    rw [hmime, if_neg hnd, if_pos hs]
  · intro hns
    have hg : guess_mimetype remote.info supported =
        Except.error (DriveError.unsupportedMimeType mimetype) := by
      unfold guess_mimetype
      rw [hmime, if_neg hnd, if_neg hns]
    refine ⟨hg, fun hconn hfid htr => ?_⟩
    have hinit := Image.init_of_guess_error tz remote file_id supported
      (DriveError.unsupportedMimeType mimetype) htr hg
    simp [handle, handle_try, hconn, hfid, hinit]

/-- Witness for C5: a TIFF file (not a drawing, not supported by a
PNG-only builder) resolves to the `UnsupportedMimeType` warning and an
unchanged empty cache. -/
theorem C5_unsupported_mimetype_witness :
    ({ trashedTiffInfo with trashed := some false } : ImageInfo).mimeType.getD ""
        = "image/tiff" ∧
    "image/tiff" ∉ EXPORTABLE_IMAGES ∧
    "image/tiff" ∉ ["image/png"] ∧
    handle 0 100 "cache" ["image/png"] idTrim envCfg
        (remoteOf { trashedTiffInfo with trashed := some false }) []
        "https://docs.google.com/drawings/d/ABC123/edit" =
      ([], Outcome.warnUnsupported "image/tiff", 0) :=
  ⟨rfl, by decide, by decide,
   ((C5_unsupported_mimetype 0 100 "cache" ["image/png"] idTrim envCfg
       (remoteOf { trashedTiffInfo with trashed := some false }) []
       "https://docs.google.com/drawings/d/ABC123/edit" "ABC123" "image/tiff"
       rfl (by decide)).2 (by decide)).2 rfl (by decide) rfl⟩

/-- C2: when a file already exists at the target path and its mtime
rounded up to the next whole second is at most the remote
`last_modified`, the cache is treated as fresh: the download is skipped
(zero content fetches) and the existing path is returned with the
filesystem unchanged. -/
theorem C2_fresh_cache_skips (tz : Int) (now : ℚ) (imagedir : String)
    (supported : List String) (trimFn : Bytes → String → Bytes) (cfg : Config)
    (remote : Remote) (fs : FS) (uri : String) (file_id : String)
    (image : ImageData) (ext : String) (file : FSFile)
    (hconn : connect_to_GoogleDrive cfg = Except.ok ())
    (hfid : url_to_file_id uri = some file_id)
    (himg : Image.init tz remote file_id supported = Except.ok image)
    (hext : get_image_extension image.mimetype = some ext)
    (hfile : FS.lookup fs (imagedir ++ "/googledrive/" ++ file_id ++ ext) = some file)
    (hfresh : ⌈file.st_mtime⌉ ≤ image.last_modified) :
    handle tz now imagedir supported trimFn cfg remote fs uri =
      (fs, Outcome.fresh (imagedir ++ "/googledrive/" ++ file_id ++ ext), 0) := by
  have hfresh' : ceilQ file.st_mtime ≤ image.last_modified := by
    rw [ceilQ_eq_ceil]; exact hfresh
  simp [handle, handle_try, hconn, hfid, himg, hext, hfile, hfresh']

/-- Witness for C2: the cached drawing export at
`cache/googledrive/ABC123.png`, with mtime 1672531199.5 s whose ceiling
1672531200 equals the remote timestamp of `2023-01-01T00:00:00Z`, is
kept: no fetch, no write, path returned as fresh. -/
theorem C2_fresh_cache_skips_witness :
    ⌈(⟨[1], mkRat 3345062399 2⟩ : FSFile).st_mtime⌉ ≤ (1672531200 : Int) ∧
    handle 0 100 "cache" ["image/png"] idTrim envCfg (remoteOf drawingInfo)
        [("cache/googledrive/ABC123.png", ⟨[1], mkRat 3345062399 2⟩)]
        "https://docs.google.com/drawings/d/ABC123/edit" =
      ([("cache/googledrive/ABC123.png", ⟨[1], mkRat 3345062399 2⟩)],
        Outcome.fresh "cache/googledrive/ABC123.png", 0) := by
  have hc : ⌈(mkRat 3345062399 2 : ℚ)⌉ = (1672531200 : Int) := by
    rw [← ceilQ_eq_ceil]; decide
  refine ⟨by rw [hc], ?_⟩
  exact C2_fresh_cache_skips 0 100 "cache" ["image/png"] idTrim envCfg
    (remoteOf drawingInfo)
    [("cache/googledrive/ABC123.png", ⟨[1], mkRat 3345062399 2⟩)]
    "https://docs.google.com/drawings/d/ABC123/edit" "ABC123"
    ⟨"ABC123", true, "image/png", some "https://drive.google.com/uc?id=ABC123",
      1672531200⟩
    ".png" ⟨[1], mkRat 3345062399 2⟩
    rfl (by decide) rfl rfl (by decide) (by rw [hc])

/-- C1: evaluation of the code at the failing inputs. A cached file whose
ceil-rounded mtime (5) is strictly less than the remote `last_modified`
(epoch second 10, from `1970-01-01T00:00:10Z` on a UTC host) must be
re-fetched and overwritten per the claim, but the code takes the
`timestamp <= image.last_modified` branch of line 154 and returns with
zero content fetches and the filesystem unchanged; conversely a cached
file with ceil-rounded mtime 11 ≥ 10 must be kept with zero fetches per
the claim, but the code re-downloads and overwrites it. The comparison
on line 154 is inverted relative to the claim (and to the cache's stated
purpose): a freshly downloaded file, whose mtime exceeds the remote
timestamp, is re-fetched on every rebuild, and an outdated cached copy
is never refreshed. -/
theorem C1_freshness_inverted_at_failing_input :
    (⌈(5 : ℚ)⌉ : Int) < 10 ∧
    parse_last_modified 0 pngInfo.modifiedTime = some 10 ∧
    handle 0 100 "cache" ["image/png"] idTrim envCfg (remoteOf pngInfo)
        [("cache/googledrive/XYZ.png", ⟨[1], 5⟩)]
        "https://drive.google.com/open?id=XYZ" =
      ([("cache/googledrive/XYZ.png", ⟨[1], 5⟩)],
        Outcome.fresh "cache/googledrive/XYZ.png", 0) ∧
    (10 : Int) ≤ ⌈(11 : ℚ)⌉ ∧
    handle 0 100 "cache" ["image/png"] idTrim envCfg (remoteOf pngInfo)
        [("cache/googledrive/XYZ.png", ⟨[1], 11⟩)]
        "https://drive.google.com/open?id=XYZ" =
      ([("cache/googledrive/XYZ.png", ⟨[7, 7, 7], 100⟩),
        ("cache/googledrive/XYZ.png", ⟨[1], 11⟩)],
        Outcome.success "cache/googledrive/XYZ.png" "image/png", 1) := by
  have h5 : (⌈(5 : ℚ)⌉ : Int) = 5 := by rw [← ceilQ_eq_ceil]; decide
  have h11 : (⌈(11 : ℚ)⌉ : Int) = 11 := by rw [← ceilQ_eq_ceil]; decide
  exact ⟨by rw [h5]; decide, by decide, by decide, by rw [h11]; decide, by decide⟩

/-- Characterization of what the code actually does at the cache
decision, with image trimming disabled: for every cached file at the
computed target path — if its ceil-rounded mtime is at most the remote
`last_modified`, resolution performs zero content fetches and returns
the same path with the cache unchanged; and if its ceil-rounded mtime is
strictly greater than the remote `last_modified`, resolution re-fetches
and overwrites the file, the new content being exactly the freshly
fetched bytes. This is the mirror image of the claimed freshness
policy. -/
theorem cache_decision_characterization (tz : Int) (now : ℚ) (imagedir : String)
    (supported : List String) (trimFn : Bytes → String → Bytes) (cfg : Config)
    (remote : Remote) (fs : FS) (uri : String) (file_id : String)
    (image : ImageData) (ext : String) (file : FSFile) (raw : Bytes)
    (hconn : connect_to_GoogleDrive cfg = Except.ok ())
    (hfid : url_to_file_id uri = some file_id)
    (himg : Image.init tz remote file_id supported = Except.ok image)
    (hext : get_image_extension image.mimetype = some ext)
    (hfile : FS.lookup fs (imagedir ++ "/googledrive/" ++ file_id ++ ext) = some file)
    (htrim : cfg.googledrive_trim_images = false)
    (hread : Image.read remote image = Except.ok raw) :
    (⌈file.st_mtime⌉ ≤ image.last_modified →
      handle tz now imagedir supported trimFn cfg remote fs uri =
        (fs, Outcome.fresh (imagedir ++ "/googledrive/" ++ file_id ++ ext), 0)) ∧
    (image.last_modified < ⌈file.st_mtime⌉ →
      handle tz now imagedir supported trimFn cfg remote fs uri =
        (FS.write fs (imagedir ++ "/googledrive/" ++ file_id ++ ext) raw now,
          Outcome.success (imagedir ++ "/googledrive/" ++ file_id ++ ext)
            image.mimetype, 1) ∧
      FS.lookup
          (FS.write fs (imagedir ++ "/googledrive/" ++ file_id ++ ext) raw now)
          (imagedir ++ "/googledrive/" ++ file_id ++ ext) = some ⟨raw, now⟩) := by
  constructor
  · intro hfresh
    have hfresh' : ceilQ file.st_mtime ≤ image.last_modified := by
      rw [ceilQ_eq_ceil]; exact hfresh
    simp [handle, handle_try, hconn, hfid, himg, hext, hfile, hfresh']
  · intro hstale
    have hstale' : ¬ ceilQ file.st_mtime ≤ image.last_modified := by
      rw [ceilQ_eq_ceil]; omega
    refine ⟨?_, FS.lookup_write fs _ raw now⟩
    simp [handle, handle_try, hconn, hfid, himg, hext, hfile, hstale',
      do_download, hread, htrim]

/-- Instance of the cache-decision characterization: the cached PNG at
`cache/googledrive/XYZ.png` with mtime 11 against remote epoch second
10 is stale for the code, so the bytes served by the content URL
overwrite it at the current time. -/
theorem cache_decision_characterization_inst :
    (10 : Int) < ⌈(⟨[1], 11⟩ : FSFile).st_mtime⌉ ∧
    handle 0 100 "cache" ["image/png"] idTrim envCfg (remoteOf pngInfo)
        [("cache/googledrive/XYZ.png", ⟨[1], 11⟩)]
        "https://drive.google.com/open?id=XYZ" =
      (FS.write [("cache/googledrive/XYZ.png", ⟨[1], 11⟩)]
        "cache/googledrive/XYZ.png" [7, 7, 7] 100,
        Outcome.success "cache/googledrive/XYZ.png" "image/png", 1) ∧
    FS.lookup
        (FS.write [("cache/googledrive/XYZ.png", ⟨[1], 11⟩)]
          "cache/googledrive/XYZ.png" [7, 7, 7] 100)
        "cache/googledrive/XYZ.png" = some ⟨[7, 7, 7], 100⟩ := by
  have h11 : (⌈(11 : ℚ)⌉ : Int) = 11 := by rw [← ceilQ_eq_ceil]; decide
  have happ := (cache_decision_characterization 0 100 "cache" ["image/png"] idTrim
    envCfg (remoteOf pngInfo) [("cache/googledrive/XYZ.png", ⟨[1], 11⟩)]
    "https://drive.google.com/open?id=XYZ" "XYZ"
    ⟨"XYZ", false, "image/png", some "https://drive.google.com/uc?id=XYZ", 10⟩
    ".png" ⟨[1], 11⟩ [7, 7, 7]
    rfl (by decide) rfl rfl (by decide) rfl rfl).2 (by rw [h11]; decide)
  exact ⟨by rw [h11]; decide, happ.1, happ.2⟩

/-- C7 counterexample: with neither the environment variable nor the
configured service-account path present, `connect_to_GoogleDrive` does
raise the `ExtensionError`, but `handle`'s final `except Exception`
clause — `ExtensionError` being a subclass of `Exception` — catches it
and logs the same verbose per-reference warning used for generic
transport failures. The build is not stopped: `handle` returns normally,
so subsequent references are still processed, refuting the claim that
the configuration error is fatal while all other errors are
per-reference. -/
theorem C7_counterexample :
    connect_to_GoogleDrive noCredCfg = Except.error DriveError.configurationError ∧
    handle_try 0 100 "cache" ["image/png"] idTrim noCredCfg (remoteOf drawingInfo)
        [] "https://docs.google.com/drawings/d/ABC123/edit" =
      BodyResult.exc [] DriveError.configurationError 0 ∧
    handle 0 100 "cache" ["image/png"] idTrim noCredCfg (remoteOf drawingInfo)
        [] "https://docs.google.com/drawings/d/ABC123/edit" =
      ([], Outcome.warnGeneric, 0) := by
  refine ⟨rfl, rfl, rfl⟩

/-- C7 as amended: authentication is resolved by checking the named
environment variable first and the configured service-account key file
second, and when neither is present the `try` block fails with the
configuration `ExtensionError`; however, `handle` catches every
exception escaping its `try` block — the configuration error included,
which its catch-all clause logs as a verbose per-reference warning — so
no error aborts processing of subsequent references. -/
theorem C7_amended_auth_resolution :
    (∀ cfg : Config, ∀ blob : String, cfg.envCredentials = some blob →
      connect_to_GoogleDrive cfg = Except.ok ()) ∧
    (∀ cfg : Config, cfg.envCredentials = none → cfg.serviceAccountTruthy = true →
      connect_to_GoogleDrive cfg = Except.ok ()) ∧
    (∀ cfg : Config, cfg.envCredentials = none → cfg.serviceAccountTruthy = false →
      connect_to_GoogleDrive cfg = Except.error DriveError.configurationError) ∧
    (∀ (tz : Int) (now : ℚ) (imagedir : String) (supported : List String)
        (trimFn : Bytes → String → Bytes) (cfg : Config) (remote : Remote)
        (fs fs₁ : FS) (uri : String) (e : DriveError) (n : Nat),
      handle_try tz now imagedir supported trimFn cfg remote fs uri =
        BodyResult.exc fs₁ e n →
      handle tz now imagedir supported trimFn cfg remote fs uri =
        (fs₁,
          match e with
          | DriveError.ioNotFound => Outcome.warnNotFound
          | DriveError.unsupportedMimeType m => Outcome.warnUnsupported m
          | DriveError.configurationError => Outcome.warnGeneric
          | DriveError.generic => Outcome.warnGeneric, n)) := by
  refine ⟨?_, ?_, ?_, ?_⟩
  · intro cfg blob h
    simp [connect_to_GoogleDrive, h]
  · intro cfg h ht
    simp [connect_to_GoogleDrive, h, ht]
  · intro cfg h ht
    simp [connect_to_GoogleDrive, h, ht]
  · intro tz now imagedir supported trimFn cfg remote fs fs₁ uri e n htry
    rw [handle, htry]
    cases e <;> rfl

/-- Witness for C7 (amended): the environment blob alone authenticates; a
configuration with neither source raises the configuration error, and
the error raised for the no-credential configuration is caught and
logged as the verbose generic warning. -/
theorem C7_amended_auth_resolution_witness :
    connect_to_GoogleDrive envCfg = Except.ok () ∧
    connect_to_GoogleDrive noCredCfg = Except.error DriveError.configurationError ∧
    handle 0 100 "cache" ["image/png"] idTrim noCredCfg (remoteOf drawingInfo)
        [] "https://docs.google.com/drawings/d/ABC123/edit" =
      ([], Outcome.warnGeneric, 0) :=
  ⟨C7_amended_auth_resolution.1 envCfg "service-account-json-blob" rfl,
   C7_amended_auth_resolution.2.2.1 noCredCfg rfl rfl,
   C7_amended_auth_resolution.2.2.2 0 100 "cache" ["image/png"] idTrim noCredCfg
     (remoteOf drawingInfo) [] [] "https://docs.google.com/drawings/d/ABC123/edit"
     DriveError.configurationError 0 rfl⟩

/-- Every path this converter resolves or caches to — whether the cache
was found fresh or the file was (re)downloaded — is the deterministic
`<imagedir>/googledrive/<file_id><ext>` with `ext` drawn from the
MIME-to-extension table for the resolved mimetype. -/
theorem handle_try_target_path (tz : Int) (now : ℚ) (imagedir : String)
    (supported : List String) (trimFn : Bytes → String → Bytes) (cfg : Config)
    (remote : Remote) (fs : FS) (uri : String) (file_id : String)
    (image : ImageData) (ext : String)
    (hconn : connect_to_GoogleDrive cfg = Except.ok ())
    (hfid : url_to_file_id uri = some file_id)
    (himg : Image.init tz remote file_id supported = Except.ok image)
    (hext : get_image_extension image.mimetype = some ext) :
    ∀ (fs₁ : FS) (p m : String) (n : Nat),
      (handle_try tz now imagedir supported trimFn cfg remote fs uri =
          BodyResult.ok fs₁ (Outcome.fresh p) n ∨
        handle_try tz now imagedir supported trimFn cfg remote fs uri =
          BodyResult.ok fs₁ (Outcome.success p m) n) →
      p = imagedir ++ "/googledrive/" ++ file_id ++ ext := by
  intro fs₁ p m n hcase
  rcases hl : FS.lookup fs (imagedir ++ "/googledrive/" ++ file_id ++ ext)
    with _ | file
  · simp only [handle_try, hconn, hfid, himg, hext, hl, do_download] at hcase
    rcases hr : Image.read remote image with e | raw <;>
      simp only [hr] at hcase <;> rcases hcase with h | h <;> simp_all
  · simp only [handle_try, hconn, hfid, himg, hext, hl] at hcase
    by_cases hc : ceilQ file.st_mtime ≤ image.last_modified
    · rw [if_pos hc] at hcase
      rcases hcase with h | h <;> simp_all
    · rw [if_neg hc] at hcase
      simp only [do_download] at hcase
      rcases hr : Image.read remote image with e | raw <;>
        simp only [hr] at hcase <;> rcases hcase with h | h <;> simp_all

/-- C8: end-to-end, the URL
`https://docs.google.com/drawings/d/ABC123/edit` with supported types
`["image/png"]` and remote metadata `{mimeType: drawing, modifiedTime:
2023-01-01T00:00:00Z, trashed: false}` resolves to local path
`cache/googledrive/ABC123.png` with target MIME type `image/png`, the
file being written with the exported PNG bytes (one content fetch); and
in general the target local path is computed deterministically as
`<imagedir>/googledrive/<file_id><ext>` with the extension derived
purely from the resolved MIME type via the fixed MIME-to-extension
table. -/
theorem C8_end_to_end_target_path :
    handle 0 100 "cache" ["image/png"] idTrim envCfg (remoteOf drawingInfo) []
        "https://docs.google.com/drawings/d/ABC123/edit" =
      ([("cache/googledrive/ABC123.png",
          ⟨(remoteOf drawingInfo).exportContent "image/png", 100⟩)],
        Outcome.success "cache/googledrive/ABC123.png" "image/png", 1) ∧
    (∀ (tz : Int) (now : ℚ) (imagedir : String) (supported : List String)
        (trimFn : Bytes → String → Bytes) (cfg : Config) (remote : Remote)
        (fs : FS) (uri : String) (file_id : String) (image : ImageData)
        (ext : String),
      connect_to_GoogleDrive cfg = Except.ok () →
      url_to_file_id uri = some file_id →
      Image.init tz remote file_id supported = Except.ok image →
      get_image_extension image.mimetype = some ext →
      ∀ (fs₁ : FS) (p m : String) (n : Nat),
        (handle_try tz now imagedir supported trimFn cfg remote fs uri =
            BodyResult.ok fs₁ (Outcome.fresh p) n ∨
          handle_try tz now imagedir supported trimFn cfg remote fs uri =
            BodyResult.ok fs₁ (Outcome.success p m) n) →
        p = imagedir ++ "/googledrive/" ++ file_id ++ ext) := by
  constructor
  · decide
  · intro tz now imagedir supported trimFn cfg remote fs uri file_id image ext
      hconn hfid himg hext
    exact handle_try_target_path tz now imagedir supported trimFn cfg remote fs
      uri file_id image ext hconn hfid himg hext

/-- Witness for C8: instantiating the general part at the end-to-end
example itself — the download completes with outcome path
`cache/googledrive/ABC123.png`, which therefore equals
`"cache" ++ "/googledrive/" ++ "ABC123" ++ ".png"`. -/
theorem C8_end_to_end_target_path_witness :
    ("cache/googledrive/ABC123.png" : String) =
      "cache" ++ "/googledrive/" ++ "ABC123" ++ ".png" :=
  C8_end_to_end_target_path.2 0 100 "cache" ["image/png"] idTrim envCfg
    (remoteOf drawingInfo) [] "https://docs.google.com/drawings/d/ABC123/edit"
    "ABC123"
    ⟨"ABC123", true, "image/png", some "https://drive.google.com/uc?id=ABC123",
      1672531200⟩
    ".png" rfl (by decide) rfl rfl
    [("cache/googledrive/ABC123.png", ⟨[9, 9, 9], 100⟩)]
    "cache/googledrive/ABC123.png" "image/png" 1
    (Or.inr (by decide))

/-- C3 counterexample: the code matches with `re.match`, which anchors at
the start of the string only, and its unescaped host dots are wildcards.
`https://driveXgoogleYcom/open?id=AB` has the wrong host, and
`https://drive.google.com/open?id=ABC/evil` matches neither recognized
template in full (its identifier part contains `/`), so the claim says
classification must return absence for both — but `url_to_file_id`
returns `AB` (the wildcard dots accept `X` and `Y`) and `ABC` (the
capture of the anchored-at-start match). The drawings template behaves
the same way with a non-`/edit` suffix such as `/view`. -/
theorem C3_counterexample :
    classify_full "https://driveXgoogleYcom/open?id=AB" = none ∧
    url_to_file_id "https://driveXgoogleYcom/open?id=AB" = some "AB" ∧
    classify_full "https://drive.google.com/open?id=ABC/evil" = none ∧
    url_to_file_id "https://drive.google.com/open?id=ABC/evil" = some "ABC" ∧
    classify_full "https://docs.google.com/drawings/d/ABC123/view" = none ∧
    url_to_file_id "https://docs.google.com/drawings/d/ABC123/view" =
      some "ABC123" := by
  refine ⟨by decide, by decide, by decide, by decide, by decide, by decide⟩

/-- C3 as amended: classification is anchored at the start of the URL
only (`re.match` semantics) and the unescaped dots of the templates'
hosts are single-character wildcards (anything but a newline). For every
string whose leading characters satisfy the
`https://drive.google.com/open?id=` pattern position by position,
followed by at least one character excluding `/` and `?`,
`url_to_file_id` returns the maximal run of such characters; otherwise,
for every string likewise starting with the
`https://docs.google.com/drawings/d/` pattern followed by at least one
such character (whether or not `/edit...` or anything else follows), it
returns that run; for every other string — host not fitting the
wildcard pattern, wrong scheme, missing query parameter, empty
identifier — it returns absence. -/
theorem C3_amended_classifier (url : String) :
    url_to_file_id url = classify_start url := by
  unfold url_to_file_id classify_start captureId
  rcases hd : matchPat DRIVE_URL_PAT url.toList with _ | rest₁
  · have h1 := matchPat_none _ _ hd
    rw [if_neg (fun hc => h1 hc.1)]
    dsimp only
    rcases hw : matchPat DRAWINGS_URL_PAT url.toList with _ | rest₂
    · have h3 := matchPat_none _ _ hw
      rw [if_neg (fun hc => h3 hc.1)]
    · obtain ⟨h3, hr⟩ := matchPat_some _ _ _ hw
      subst hr
      dsimp only
      by_cases h4 :
          (url.toList.drop DRAWINGS_URL_PAT.length).takeWhile isIdChar = []
      · rw [if_pos h4, if_neg (fun hc => hc.2 h4)]
        rfl
      · rw [if_neg h4, if_pos ⟨h3, h4⟩]
        rfl
  · obtain ⟨h1, hr⟩ := matchPat_some _ _ _ hd
    subst hr
    dsimp only
    by_cases h2 : (url.toList.drop DRIVE_URL_PAT.length).takeWhile isIdChar = []
    · rw [if_pos h2, if_neg (fun hc => hc.2 h2)]
      dsimp only
      rcases hw : matchPat DRAWINGS_URL_PAT url.toList with _ | rest₂
      · have h3 := matchPat_none _ _ hw
        rw [if_neg (fun hc => h3 hc.1)]
      · obtain ⟨h3, hr⟩ := matchPat_some _ _ _ hw
        subst hr
        dsimp only
        by_cases h4 :
            (url.toList.drop DRAWINGS_URL_PAT.length).takeWhile isIdChar = []
        · rw [if_pos h4, if_neg (fun hc => hc.2 h4)]
          rfl
        · rw [if_neg h4, if_pos ⟨h3, h4⟩]
          rfl
    · rw [if_neg h2, if_pos ⟨h1, h2⟩]

end GoogleDrive
